import Mathlib

/-!
Shallow embedding of the serial protocol core of vproweather
(src/index.tsx, and the compiled revision src/index.js where the two differ).

Bytes are modelled as `Nat` (values 0..255 in practice), byte buffers as
`List Nat`, and the serial channel as the list of chunks its `read()` calls
return (`some chunk`) until it runs dry (`none` / null).
-/

set_option maxRecDepth 100000

namespace VProWeather

/-- READ_WRITE_BUF_LEN from src/index.tsx:28: capacity of the read buffer. -/
def READ_WRITE_BUF_LEN : Nat := 4200

/-- Byte view of an ASCII string, as produced by Buffer.from(s, "ascii"). -/
def asciiBytes (s : String) : List Nat := s.data.map Char.toNat

/-- Decimal string a JavaScript template literal produces for a number, as in
the interpolation at src/index.tsx:151: String(18) = "18". -/
def jsNumberToString (n : Nat) : String := String.mk (Nat.toDigits 10 n)

/-- Index, counted from the end of the buffer, of the first non-zero byte met
when scanning backwards: mirrors the for-loop of trimBufferEnd
(src/index.tsx:40-45), which runs i from buf.length-1 down to 0 and stops at
the first i with buf\x5bi\x5d ≠ 0. This helper scans the reversed buffer. -/
def lastNonZeroOffset : List Nat → Option Nat
  | [] => none
  | b :: rest => if b ≠ 0 then some 0 else (lastNonZeroOffset rest).map (fun j => j + 1)

/-- trimBufferEnd from src/index.tsx:38-47. idx starts at 0; the backwards scan
sets idx to the index of the last non-zero byte if one exists (that index is
buf.length - 1 - j when the scan stops j positions from the end), and leaves
idx = 0 otherwise; the result is buf.slice(0, idx + 1). -/
def trimBufferEnd (buf : List Nat) : List Nat :=
  match lastNonZeroOffset buf.reverse with
  | some j => buf.take (buf.length - 1 - j + 1)
  | none => buf.take 1

/-- Node Buffer.prototype.copy semantics used at src/index.tsx:59: overwrite
target from position targetStart with the source bytes, clamped so that the
target never grows: at most target.length - targetStart source bytes are
copied and the remaining source bytes are silently dropped. -/
def bufferCopy (target : List Nat) (targetStart : Nat) (source : List Nat) : List Nat :=
  target.take targetStart
    ++ source.take (target.length - targetStart)
    ++ target.drop (targetStart + min source.length (target.length - targetStart))

/-- Module state of readAllIncomingBytes (src/index.tsx:30-31): the lazily
allocated read buffer and the write cursor readBufferIdx. -/
structure AccState where
  readBuffer : List Nat
  readBufferIdx : Nat
deriving DecidableEq, Repr

/-- State right after the lazy allocation at src/index.tsx:53-56:
a zero-filled buffer of READ_WRITE_BUF_LEN bytes and cursor 0. -/
def initState : AccState :=
  { readBuffer := List.replicate READ_WRITE_BUF_LEN 0, readBufferIdx := 0 }

/-- One pending step of readAllIncomingBytes (src/index.tsx:57-61): vpro.read()
returned a chunk, which is copied into the buffer at the cursor, and then the
cursor is incremented by one (readBufferIdx++), whatever the chunk length. -/
def accumChunk (st : AccState) (chunk : List Nat) : AccState :=
  { readBuffer := bufferCopy st.readBuffer st.readBufferIdx chunk
    readBufferIdx := st.readBufferIdx + 1 }

/-- Folding accumChunk over the chunks the channel delivers. -/
def accumChunks (st : AccState) : List (List Nat) → AccState
  | [] => st
  | c :: rest => accumChunks (accumChunk st c) rest

/-- The drive loop of getFirmwareVersion (src/index.tsx:128-131): call
readAllIncomingBytes while it returns true (one chunk consumed per call);
when vpro.read() returns null the buffer is trimmed and returned
(src/index.tsx:63-65). -/
def readAllBytes (chunks : List (List Nat)) : List Nat :=
  trimBufferEnd (accumChunks initState chunks).readBuffer

/-- Result of the wake handshake, tagged with the write attempt on which the
station answered. -/
inductive WakeResult where
  | woken (attempt : Nat)
  | wakeFailed
deriving DecidableEq, Repr

/-- wakeUpStation from src/index.tsx:71-89, over the outcomes of the serial
writes (writeOk n is true when the n-th write of CR succeeds). The function
issues a single write of the CR byte: the promise is rejected as soon as that
write reports an error, and resolved (after drain and a 200 ms settle timer)
when it succeeds. There is no retry loop. -/
def wakeUpStation (writeOk : Nat → Bool) : WakeResult :=
  if writeOk 1 then WakeResult.woken 1 else WakeResult.wakeFailed

/-- Wire bytes of the firmware query, Buffer.from("VER\n", "ascii") at
src/index.tsx:119. -/
def getFirmwareVersionBytes : List Nat := asciiBytes "VER\n"

/-- Wire bytes of the backlight command, Buffer.from with a template literal
at src/index.tsx:100. -/
def switchBacklightBytes (turnOn : Bool) : List Nat :=
  asciiBytes ("LAMPS " ++ (if turnOn then "1" else "0") ++ "\n")

/-- Wire bytes of the model query in src/index.tsx:151: the template literal
WRD${0x12}${0x4d}\n interpolates the numbers 0x12 = 18 and 0x4d = 77, which
JavaScript converts to their decimal strings "18" and "77". -/
def getModelBytesTsx : List Nat :=
  asciiBytes ("WRD" ++ jsNumberToString 0x12 ++ jsNumberToString 0x4d ++ "\n")

/-- Wire bytes of the model query in the compiled revision src/index.js:145,
where the string literal carries the raw escapes \x12 and \x4d. -/
def getModelBytesJs : List Nat := asciiBytes "WRD\x12\x4D\n"

/-- Model-code switch shared by both revisions (src/index.tsx:165-175,
src/index.js:158-186). -/
def modelName : Nat → String
  | 0 => "Wizard III"
  | 1 => "Wizard II"
  | 2 => "Monitor"
  | 3 => "Perception"
  | 4 => "GroWeather"
  | 5 => "Energy Environmonitor"
  | 6 => "Health Environmonitor"
  | 16 => "Vantage Pro"
  | _ => "Unknown model"

/-- Reply decoding of getModel in src/index.tsx:160-176: vpro.read() with no
size argument returns every buffered byte (or null when nothing is buffered,
in which case nothing is decoded), and readUInt8() reads the byte at offset 0
of that read. -/
def decodeModelReplyTsx (reply : List Nat) : Option String :=
  match reply with
  | [] => none
  | b :: _ => some (modelName b)

/-- Reply decoding of getModel in the compiled revision src/index.js:154-187:
vpro.read(4) returns a 4-byte record only when at least 4 bytes are buffered
(null otherwise), and readUInt8(3) reads the byte at offset 3. -/
def decodeModelReplyJs (reply : List Nat) : Option String :=
  if 4 ≤ reply.length then some (modelName (reply.getD 3 0)) else none

/-- The argv fields the program destructures at src/index.tsx:216. yargs is
configured (src/index.tsx:185-214) with option f (alias firmware-version),
option b (alias set-backlight, numeric), option m (alias model) and option
verbose; those parsed values land in the fields f, b, m and verbose. The
program nevertheless destructures a field named bk, which no declared option
populates, so bk stays undefined for every documented invocation. -/
structure ParsedArgv where
  f : Bool
  b : Option Nat
  bk : Option Nat
  m : Bool
  verbose : Bool
deriving DecidableEq, Repr

/-- Parsing of a command line that uses the documented flags: the value of
-b or set-backlight lands in field b; no option named bk exists, so bk is
undefined (none). -/
def parseArgs (firmwareFlag : Bool) (backlightFlag : Option Nat) (modelFlag : Bool)
    (verboseFlag : Bool) : ParsedArgv :=
  { f := firmwareFlag, b := backlightFlag, bk := none, m := modelFlag
    verbose := verboseFlag }

/-- Bytes getFirmwareVersion writes to the port (src/index.tsx:116-143): the
whole body, including the write of "VER\n", sits inside if (verbose). -/
def getFirmwareVersionWrites (verbose : Bool) : List (List Nat) :=
  if verbose then [getFirmwareVersionBytes] else []

/-- Bytes getModel writes to the port (src/index.tsx:148-183): the whole body,
including the write of the query, sits inside if (verbose). -/
def getModelWrites (verbose : Bool) : List (List Nat) :=
  if verbose then [getModelBytesTsx] else []

/-- Bytes switchBacklight writes to the port (src/index.tsx:96-111): the write
is unconditional; only the log lines are gated on verbose. -/
def switchBacklightWrites (turnOn : Bool) : List (List Nat) :=
  [switchBacklightBytes turnOn]

/-- The open handler at src/index.tsx:222-242 as the list of command payloads
written to the port: await wakeUpStation() first (a rejected wake aborts the
async handler, so no command is issued); then the first matching branch of
firmware / backlight / model runs, where the backlight test reads the
destructured bk field (src/index.tsx:216,231) and turns the light off exactly
when that value is 0 (src/index.tsx:232-237). -/
def onOpen (a : ParsedArgv) (writeOk : Nat → Bool) : List (List Nat) :=
  match wakeUpStation writeOk with
  | WakeResult.wakeFailed => []
  | WakeResult.woken _ =>
    if a.f then getFirmwareVersionWrites a.verbose
    else
      match a.bk with
      | some n => switchBacklightWrites (decide (n ≠ 0))
      | none => if a.m then getModelWrites a.verbose else []

/-- Write-outcome sequence whose first write fails and whose second write
succeeds, used to probe the retry behaviour of the wake handshake. -/
def failThenSucceed : Nat → Bool := fun n => decide (n = 2)

/-! Helper lemmas about the embedded primitives. -/

theorem replicate_take (n m a : Nat) :
    (List.replicate m a).take n = List.replicate (min n m) a := by
  induction n generalizing m with
  | zero => simp
  | succ k ih =>
    cases m with
    | zero => simp
    | succ m =>
      simp [List.replicate_succ, List.take_succ_cons, ih, Nat.succ_min_succ]

theorem replicate_drop (n m a : Nat) :
    (List.replicate m a).drop n = List.replicate (m - n) a := by
  induction n generalizing m with
  | zero => simp
  | succ k ih =>
    cases m with
    | zero => simp
    | succ m => simp [List.replicate_succ, ih, Nat.succ_sub_succ]

theorem take_one_cons (a : Nat) (l : List Nat) : (a :: l).take 1 = [a] := rfl

theorem take_add_two (a b : Nat) (l : List Nat) (n : Nat) :
    (a :: b :: l).take (n + 2) = a :: b :: l.take n := rfl

theorem lastNonZeroOffset_replicate_zero (n : Nat) :
    lastNonZeroOffset (List.replicate n 0) = none := by
  induction n with
  | zero => rfl
  | succ k ih => simp [List.replicate_succ, lastNonZeroOffset, ih]

theorem lastNonZeroOffset_pad (n b : Nat) (hb : b ≠ 0) (l : List Nat) :
    lastNonZeroOffset (List.replicate n 0 ++ b :: l) = some n := by
  induction n with
  | zero => simp [lastNonZeroOffset, hb]
  | succ k ih => simp [List.replicate_succ, lastNonZeroOffset, ih]

theorem bufferCopy_length (t : List Nat) (ts : Nat) (src : List Nat) :
    (bufferCopy t ts src).length = t.length := by
  simp [bufferCopy]
  omega

theorem trimBufferEnd_length_le (buf : List Nat) :
    (trimBufferEnd buf).length ≤ buf.length := by
  unfold trimBufferEnd
  cases lastNonZeroOffset buf.reverse <;> simp [List.length_take]

theorem accumChunks_buffer_length (chunks : List (List Nat)) :
    ∀ st : AccState, ((accumChunks st chunks).readBuffer).length = st.readBuffer.length := by
  induction chunks with
  | nil => intro st; rfl
  | cons c rest ih => intro st; simp [accumChunks, accumChunk, ih, bufferCopy_length]

theorem accumChunks_idx (chunks : List (List Nat)) :
    ∀ st : AccState, (accumChunks st chunks).readBufferIdx = st.readBufferIdx + chunks.length := by
  induction chunks with
  | nil => intro st; simp [accumChunks]
  | cons c rest ih => intro st; simp [accumChunks, accumChunk, ih]; omega

theorem bufferCopy_zero_fit (t src : List Nat) (h : src.length ≤ t.length) :
    bufferCopy t 0 src = src ++ t.drop src.length := by
  simp only [bufferCopy, List.take_zero, List.nil_append, Nat.sub_zero, Nat.zero_add,
    Nat.min_eq_left h, List.take_of_length_le h]

theorem bufferCopy_zero_overflow (t src : List Nat) (h : t.length ≤ src.length) :
    bufferCopy t 0 src = src.take t.length := by
  simp only [bufferCopy, List.take_zero, List.nil_append, Nat.sub_zero, Nat.zero_add,
    Nat.min_eq_right h, List.drop_of_length_le (Nat.le_refl t.length), List.append_nil]

theorem bufferCopy_fill (t src : List Nat) (ts : Nat) (h1 : ts ≤ t.length)
    (h2 : t.length - ts ≤ src.length) :
    bufferCopy t ts src = t.take ts ++ src.take (t.length - ts) := by
  unfold bufferCopy
  rw [Nat.min_eq_right h2, show ts + (t.length - ts) = t.length from by omega,
    List.drop_of_length_le (Nat.le_refl t.length), List.append_nil]

/-- First chunk of the firmware scenario: the two ASCII bytes of "5.". -/
def chunkA : List Nat := [0x35, 0x2E]

/-- Second chunk of the firmware scenario: the two ASCII bytes of "2\n"
followed by zero padding up to the 4200-byte record size. -/
def chunkB : List Nat := [0x32, 0x0A] ++ List.replicate 4198 0

theorem chunkA_fits : chunkA.length ≤ (List.replicate 4200 (0 : Nat)).length := by
  rw [List.length_replicate, show chunkA.length = 2 from rfl]
  omega

theorem copy_chunkA : bufferCopy (List.replicate 4200 0) 0 chunkA
    = 53 :: 46 :: List.replicate 4198 0 := by
  rw [bufferCopy_zero_fit _ _ chunkA_fits, show chunkA.length = 2 from rfl, replicate_drop]
  rfl

theorem buf1_length : ((53 : Nat) :: 46 :: List.replicate 4198 0).length = 4200 := by
  simp only [List.length_cons, List.length_replicate]

theorem chunkB_length : chunkB.length = 4200 := by
  simp only [chunkB, List.length_append, List.length_cons, List.length_nil,
    List.length_replicate]

theorem copy_chunkB : bufferCopy (53 :: 46 :: List.replicate 4198 0) 1 chunkB
    = 53 :: 50 :: 10 :: List.replicate 4197 0 := by
  rw [bufferCopy_fill _ _ _ (by rw [buf1_length]; omega)
      (by rw [buf1_length, chunkB_length]; omega),
    buf1_length, take_one_cons 53 _,
    show (4200 : Nat) - 1 = 4197 + 2 from rfl,
    show chunkB = 50 :: 10 :: List.replicate 4198 0 from rfl,
    take_add_two, replicate_take, Nat.min_eq_left (by omega)]
  rfl

theorem accum_chunkA : accumChunk initState chunkA
    = { readBuffer := 53 :: 46 :: List.replicate 4198 0, readBufferIdx := 1 } := by
  show ({ readBuffer := bufferCopy (List.replicate 4200 0) 0 chunkA
          readBufferIdx := 1 } : AccState) = _
  rw [copy_chunkA]

theorem accum_two_chunks_buffer :
    (accumChunks initState [chunkA, chunkB]).readBuffer
      = 53 :: 50 :: 10 :: List.replicate 4197 0 := by
  simp only [accumChunks, accumChunk, initState, READ_WRITE_BUF_LEN, Nat.zero_add]
  rw [copy_chunkA, copy_chunkB]

theorem trim_scenario :
    trimBufferEnd (53 :: 50 :: 10 :: List.replicate 4197 0) = [53, 50, 10] := by
  have hrev : ((53 : Nat) :: 50 :: 10 :: List.replicate 4197 0).reverse
      = List.replicate 4197 0 ++ 10 :: [50, 53] := by
    simp only [List.reverse_cons, List.reverse_replicate, List.append_assoc,
      List.cons_append, List.nil_append]
  have hlen : ((53 : Nat) :: 50 :: 10 :: List.replicate 4197 0).length = 4200 := by
    simp only [List.length_cons, List.length_replicate]
  unfold trimBufferEnd
  rw [hrev, lastNonZeroOffset_pad 4197 10 (by omega) _]
  show (53 :: 50 :: 10 :: List.replicate 4197 0).take
      ((53 :: 50 :: 10 :: List.replicate 4197 0).length - 1 - 4197 + 1) = _
  rw [hlen, show (4200 : Nat) - 1 - 4197 + 1 = 1 + 2 from rfl, take_add_two, take_one_cons]

theorem readAllBytes_two_chunks : readAllBytes [chunkA, chunkB] = [53, 50, 10] := by
  show trimBufferEnd (accumChunks initState [chunkA, chunkB]).readBuffer = _
  rw [accum_two_chunks_buffer, trim_scenario]

theorem trim_allzero (n : Nat) : trimBufferEnd (List.replicate (n + 1) 0) = [0] := by
  unfold trimBufferEnd
  rw [List.reverse_replicate, lastNonZeroOffset_replicate_zero]
  show (List.replicate (n + 1) 0).take 1 = [0]
  rw [List.replicate_succ, take_one_cons]

theorem bufferCopy_replicate_overflow (n : Nat) :
    bufferCopy (List.replicate 4200 0) 0 (List.replicate (4200 + n) 65)
      = List.replicate 4200 65 := by
  have hle : (List.replicate 4200 (0 : Nat)).length
      ≤ (List.replicate (4200 + n) (65 : Nat)).length := by
    simp only [List.length_replicate]
    omega
  rw [bufferCopy_zero_overflow _ _ hle, List.length_replicate, replicate_take,
    Nat.min_eq_left (by omega)]

theorem trim_full_65 : trimBufferEnd (List.replicate 4200 65) = List.replicate 4200 65 := by
  have h1 : lastNonZeroOffset (List.replicate 4200 65).reverse = some 0 := by
    rw [List.reverse_replicate, show (4200 : Nat) = 4199 + 1 from rfl, List.replicate_succ,
      show ((65 : Nat) :: List.replicate 4199 65)
        = List.replicate 0 0 ++ 65 :: List.replicate 4199 65 from rfl,
      lastNonZeroOffset_pad 0 65 (by omega) _]
  unfold trimBufferEnd
  rw [h1]
  show (List.replicate 4200 65).take ((List.replicate 4200 65).length - 1 - 0 + 1) = _
  rw [List.length_replicate, show (4200 : Nat) - 1 - 0 + 1 = 4200 from rfl,
    List.take_of_length_le (by simp only [List.length_replicate]; exact Nat.le_refl _)]

theorem readAllBytes_overflow (n : Nat) :
    readAllBytes [List.replicate (4200 + n) 65] = List.replicate 4200 65 := by
  simp only [readAllBytes, accumChunks, accumChunk, initState, READ_WRITE_BUF_LEN]
  rw [bufferCopy_replicate_overflow, trim_full_65]

theorem readAllBytes_length_le (chunks : List (List Nat)) :
    (readAllBytes chunks).length ≤ 4200 := by
  have h2 : ((accumChunks initState chunks).readBuffer).length = 4200 := by
    rw [accumChunks_buffer_length chunks initState]
    simp only [initState, List.length_replicate, READ_WRITE_BUF_LEN]
  calc (readAllBytes chunks).length
      = (trimBufferEnd (accumChunks initState chunks).readBuffer).length := rfl
    _ ≤ ((accumChunks initState chunks).readBuffer).length := trimBufferEnd_length_le _
    _ = 4200 := h2

/-! Claim theorems. -/

/-- C1: the response accumulator is NOT chunking invariant. Delivering "5."
and then "2\n" followed by zero padding yields the bytes 35 32 0A — the dot
of the first chunk is overwritten, because the cursor advances by one per
chunk instead of one per byte — and not the claimed 35 2E 32 0A. This theorem
evaluates the code at that failing input. -/
theorem firmware_two_chunk_delivery :
    readAllBytes [chunkA, chunkB] = [0x35, 0x32, 0x0A] ∧
    ([0x35, 0x32, 0x0A] : List Nat) ≠ [0x35, 0x2E, 0x32, 0x0A] :=
  ⟨readAllBytes_two_chunks, by decide⟩

/-- C2 counterexample: for the write-outcome sequence whose first write fails
and whose second write succeeds, the claim says the wake succeeds on attempt
2; the code makes a single attempt and reports failure. -/
theorem wake_retry_counterexample :
    wakeUpStation failThenSucceed = WakeResult.wakeFailed ∧
    failThenSucceed 1 = false ∧ failThenSucceed 2 = true ∧
    WakeResult.wakeFailed ≠ WakeResult.woken 2 := by decide

/-- C2 (amended): the wake operation makes exactly one write attempt: it
succeeds if and only if the first write succeeds, fails if and only if the
first write fails, and after a failure no command is issued on the session. -/
theorem wake_single_attempt (writeOk : Nat → Bool) (a : ParsedArgv) :
    (wakeUpStation writeOk = WakeResult.woken 1 ↔ writeOk 1 = true) ∧
    (wakeUpStation writeOk = WakeResult.wakeFailed ↔ writeOk 1 = false) ∧
    (wakeUpStation writeOk = WakeResult.wakeFailed → onOpen a writeOk = []) := by
  cases h : writeOk 1 <;> simp [wakeUpStation, onOpen, h]

/-- C2 witness: the amended claim applied to the all-fail outcome sequence. -/
theorem wake_single_attempt_witness :
    onOpen (parseArgs false none false false) (fun _ => false) = [] :=
  (wake_single_attempt (fun _ => false) (parseArgs false none false false)).2.2 rfl

/-- C3: trimming an all-zero buffer of length n+1 yields the single byte
0x00, not a zero-length result: idx stays 0 and buf.slice(0, 1) keeps one
padding byte, contradicting the function's own comment "Remove trailing 0x00
from a buffer". This theorem evaluates the code at the failing input [0,0]
and at every all-zero buffer of positive length. -/
theorem trim_all_zero_one_byte :
    trimBufferEnd [0, 0] = [0] ∧ (trimBufferEnd [0, 0]).length = 1 ∧
    (∀ n : Nat, trimBufferEnd (List.replicate (n + 1) 0) = [0]) :=
  ⟨by decide, by decide, trim_allzero⟩

/-- C4: flag dispatch does not transmit the commands the claim promises.
With the firmware flag and verbose off, nothing is written; with the
set-backlight flag (which parses into field b while the code reads bk),
nothing is written even with verbose on; with the model flag and verbose off,
nothing is written; with no flag the session idles; the firmware and model
queries only go out when verbose is also set. -/
theorem flag_dispatch_requires_verbose :
    onOpen (parseArgs true none false false) (fun _ => true) = [] ∧
    onOpen (parseArgs false (some 1) false true) (fun _ => true) = [] ∧
    onOpen (parseArgs false none true false) (fun _ => true) = [] ∧
    onOpen (parseArgs false none false true) (fun _ => true) = [] ∧
    onOpen (parseArgs true none false true) (fun _ => true) = [getFirmwareVersionBytes] ∧
    onOpen (parseArgs false none true true) (fun _ => true) = [getModelBytesTsx] := by
  decide

/-- C5: the model query of the current .tsx revision encodes to the eight
bytes of "WRD1877\n" (the template literal stringifies 0x12 and 0x4d to "18"
and "77"), not to the claimed six bytes 57 52 44 12 4D 0A; only the compiled
.js revision produces the claimed bytes. -/
theorem model_command_bytes_by_revision :
    getModelBytesTsx = [0x57, 0x52, 0x44, 0x31, 0x38, 0x37, 0x37, 0x0A] ∧
    getModelBytesJs = [0x57, 0x52, 0x44, 0x12, 0x4D, 0x0A] ∧
    getModelBytesTsx ≠ getModelBytesJs := by decide

/-- C6 counterexample: the offset-0 decoder of the current revision, fed the
offset-3-convention reply 00 00 00 10, silently decodes the wrong model
"Wizard III"; nothing in the code makes the offset configurable. -/
theorem model_offset_mismatch_counterexample :
    decodeModelReplyTsx [0x00, 0x00, 0x00, 0x10] = some "Wizard III" ∧
    "Wizard III" ≠ "Vantage Pro" := by decide

/-- C6 (amended): each revision hardcodes its own offset — 0 in the .tsx
revision, 3 in the compiled .js revision — and under the matching convention
the reply decodes to "Vantage Pro", while a mismatched reply silently decodes
to a wrong model. -/
theorem model_offset_by_revision :
    decodeModelReplyJs [0x00, 0x00, 0x00, 0x10] = some "Vantage Pro" ∧
    decodeModelReplyTsx [0x10] = some "Vantage Pro" ∧
    decodeModelReplyTsx [0x00, 0x00, 0x00, 0x10] = some "Wizard III" := by decide

/-- C7 counterexample: a single 4201-byte reply is silently truncated to the
4200-byte capacity and reported as a normal completion — there is no
BufferOverflow error path in the code. -/
theorem overflow_silent_truncation_counterexample :
    readAllBytes [List.replicate 4201 65] = List.replicate 4200 65 ∧
    List.replicate 4200 (65 : Nat) ≠ List.replicate 4201 65 := by
  constructor
  · rw [show (4201 : Nat) = 4200 + 1 from rfl]
    exact readAllBytes_overflow 1
  · intro h
    have hlen := congrArg List.length h
    simp only [List.length_replicate] at hlen
    omega

/-- C7 (amended): the accumulator never raises an overflow error: every
exchange completes with at most 4200 bytes, and a reply chunk of 4200 + n
bytes is silently truncated to the 4200-byte capacity. -/
theorem accumulator_truncates_never_errors :
    (∀ chunks : List (List Nat), (readAllBytes chunks).length ≤ 4200) ∧
    (∀ n : Nat, readAllBytes [List.replicate (4200 + n) 65] = List.replicate 4200 65) :=
  ⟨readAllBytes_length_le, readAllBytes_overflow⟩

/-- C8 counterexample: the switch maps 8 byte values to named models, not 9
as the claim counts. -/
theorem model_decoder_count_counterexample :
    ((List.range 256).filter (fun c => modelName c != "Unknown model")).length ≠ 9 := by
  decide

/-- C8 (amended): the model decoder is total over all 256 byte values:
decode(0) = "Wizard III", decode(16) = "Vantage Pro", decode(99) and
decode(255) fall through to "Unknown model", exactly 8 byte values are
mapped, and every byte outside {0,1,2,3,4,5,6,16} decodes to
"Unknown model". -/
theorem model_decoder_total :
    modelName 0 = "Wizard III" ∧ modelName 16 = "Vantage Pro" ∧
    modelName 99 = "Unknown model" ∧ modelName 255 = "Unknown model" ∧
    ((List.range 256).filter (fun c => modelName c != "Unknown model")).length = 8 ∧
    (∀ c : Nat, c < 256 → c ∉ ([0, 1, 2, 3, 4, 5, 6, 16] : List Nat) →
      modelName c = "Unknown model") := by
  decide

/-- C8 witness: the amended claim applied to the unmapped byte 99. -/
theorem model_decoder_total_witness : modelName 99 = "Unknown model" :=
  model_decoder_total.2.2.2.2.2 99 (by decide) (by decide)

/-- C9: the backlight command encodes to exactly "LAMPS 1\n" when turning on
and "LAMPS 0\n" when turning off. -/
theorem backlight_command_bytes :
    switchBacklightBytes true = [0x4C, 0x41, 0x4D, 0x50, 0x53, 0x20, 0x31, 0x0A] ∧
    switchBacklightBytes false = [0x4C, 0x41, 0x4D, 0x50, 0x53, 0x20, 0x30, 0x0A] := by
  decide

/-- C10: each accumulate step advances the write cursor by exactly one,
whatever the byte length of the received chunk, so after k chunks the cursor
equals k. -/
theorem cursor_counts_chunks :
    (∀ (st : AccState) (chunk : List Nat),
      (accumChunk st chunk).readBufferIdx = st.readBufferIdx + 1) ∧
    (∀ chunks : List (List Nat),
      (accumChunks initState chunks).readBufferIdx = chunks.length) := by
  refine ⟨fun st chunk => rfl, fun chunks => ?_⟩
  rw [accumChunks_idx chunks initState]
  show 0 + chunks.length = chunks.length
  omega

end VProWeather
